import Mathlib

/-!
Formal model of the QGIS Monitor Pro plugin (settings store, diagnostics
utilities, monitoring engine lifecycle, coalescing and watchdog logic, and
the live log tailing widgets), with theorems checking the documented
behaviour against this model.

Modelling conventions:
* Python values flowing through the settings layer are an inductive type
  covering None, bool, int, float and str; Python floats are modelled as
  rationals, and real-valued clock readings are rationals as well.
* The persistent QSettings store is a partial map from key strings to raw
  stored values; raised Python exceptions are modelled with Option or with
  an explicit outcome type.
* Filesystem and network side effects are modelled by explicit outcome
  flags passed in as inputs, so every function stays executable.
-/

/-- Python values that flow through the settings layer: None, bool, int,
float and str. Floats are modelled as rationals. -/
inductive PyVal where
  | pnone : PyVal
  | pbool : Bool → PyVal
  | pint : Int → PyVal
  | pfloat : Rat → PyVal
  | pstr : String → PyVal
deriving DecidableEq, Repr

/-- Python truthiness, as used by the builtin bool conversion. -/
def pyTruthy : PyVal → Bool
  | PyVal.pnone => false
  | PyVal.pbool b => b
  | PyVal.pint i => decide (i ≠ 0)
  | PyVal.pfloat q => decide (q ≠ 0)
  | PyVal.pstr s => decide (s ≠ "")

/-- Decimal digits to a natural number; fails on empty or non-digit input. -/
def digitsToNat (cs : List Char) : Option Nat :=
  if cs.isEmpty then Option.none
  else
    cs.foldl
      (fun acc c =>
        match acc with
        | Option.none => Option.none
        | some n => if c.isDigit then some (10 * n + (c.toNat - 48)) else Option.none)
      (some 0)

/-- Whitespace stripped by Python int and float string conversion. -/
def pyIsSpace (c : Char) : Bool :=
  (c == ' ') || (c == '\t') || (c == '\n') || (c == '\r')

/-- Strip leading and trailing whitespace from a character list. -/
def pyStrip (cs : List Char) : List Char :=
  ((cs.dropWhile pyIsSpace).reverse.dropWhile pyIsSpace).reverse

/-- Python int(s) on a string: optional sign and decimal digits, with
surrounding whitespace ignored; anything else raises, modelled as none. -/
def parseIntStr (s : String) : Option Int :=
  match pyStrip s.toList with
  | '-' :: rest => (digitsToNat rest).map (fun n => -(n : Int))
  | '+' :: rest => (digitsToNat rest).map (fun n => (n : Int))
  | cs => (digitsToNat cs).map (fun n => (n : Int))

/-- Unsigned decimal float literal: integer part, optional point, optional
fractional part. Scientific notation is not modelled; no theorem depends on
which exotic strings parse. -/
def parseUnsignedFloat (cs : List Char) : Option Rat :=
  let intPart := cs.takeWhile (fun c => c != '.')
  let rest := cs.dropWhile (fun c => c != '.')
  match rest with
  | [] => (digitsToNat intPart).map (fun n => (n : Rat))
  | _ :: frac =>
    if frac.contains '.' then Option.none
    else
      match intPart, frac with
      | [], [] => Option.none
      | [], f => (digitsToNat f).map (fun n => (n : Rat) / ((10 : Rat) ^ f.length))
      | ip, [] => (digitsToNat ip).map (fun n => (n : Rat))
      | ip, f =>
        match digitsToNat ip, digitsToNat f with
        | some a, some b => some ((a : Rat) + (b : Rat) / ((10 : Rat) ^ f.length))
        | _, _ => Option.none

/-- Python float(s) on a string. -/
def parseFloatStr (s : String) : Option Rat :=
  match pyStrip s.toList with
  | '-' :: rest => (parseUnsignedFloat rest).map (fun q => -q)
  | '+' :: rest => parseUnsignedFloat rest
  | cs => parseUnsignedFloat cs

/-- Python str(x). The textual form of a float is abstracted by the rational
printer; no theorem depends on it. -/
def pyStrOf : PyVal → String
  | PyVal.pnone => "None"
  | PyVal.pbool b => if b then "True" else "False"
  | PyVal.pint i => toString i
  | PyVal.pfloat q => toString q
  | PyVal.pstr s => s

/-- Python int(f) truncates a float toward zero. -/
def ratTrunc (q : Rat) : Int :=
  if 0 ≤ q.num then q.num / (q.den : Int) else -((-q.num) / (q.den : Int))

/-- The Python types that appear as qt_type in the settings catalog. -/
inductive QtType where
  | tbool : QtType
  | tint : QtType
  | tfloat : QtType
  | tstr : QtType
deriving DecidableEq, Repr

/-- Applying a Python type constructor T(value); none models a raised
conversion error, which SettingSpec.coerce catches. -/
def pyConvert : QtType → PyVal → Option PyVal
  | QtType.tbool, v => some (PyVal.pbool (pyTruthy v))
  | QtType.tint, PyVal.pnone => Option.none
  | QtType.tint, PyVal.pbool b => some (PyVal.pint (if b then 1 else 0))
  | QtType.tint, PyVal.pint i => some (PyVal.pint i)
  | QtType.tint, PyVal.pfloat q => some (PyVal.pint (ratTrunc q))
  | QtType.tint, PyVal.pstr s => (parseIntStr s).map PyVal.pint
  | QtType.tfloat, PyVal.pnone => Option.none
  | QtType.tfloat, PyVal.pbool b => some (PyVal.pfloat (if b then 1 else 0))
  | QtType.tfloat, PyVal.pint i => some (PyVal.pfloat (i : Rat))
  | QtType.tfloat, PyVal.pfloat q => some (PyVal.pfloat q)
  | QtType.tfloat, PyVal.pstr s => (parseFloatStr s).map PyVal.pfloat
  | QtType.tstr, v => some (PyVal.pstr (pyStrOf v))

/-- Mirror of utils.SettingSpec: a key, a default and an optional declared
type. -/
structure SettingSpec where
  key : String
  default : PyVal
  qt_type : Option QtType
deriving DecidableEq, Repr

/-- Runtime Python type of a value, used by coerce when qt_type is absent
(type(self.default) in the source). -/
def pyTypeOf : PyVal → Option QtType
  | PyVal.pnone => Option.none
  | PyVal.pbool _ => some QtType.tbool
  | PyVal.pint _ => some QtType.tint
  | PyVal.pfloat _ => some QtType.tfloat
  | PyVal.pstr _ => some QtType.tstr

/-- Mirror of utils.SettingSpec.coerce: None falls back to the default, a
declared type is applied with fallback to the default on conversion error,
and without a declared type the type of the default is applied instead. -/
def SettingSpec.coerce (spec : SettingSpec) (value : PyVal) : PyVal :=
  if value = PyVal.pnone then spec.default
  else
    match spec.qt_type with
    | some t => (pyConvert t value).getD spec.default
    | Option.none =>
      match pyTypeOf spec.default with
      | Option.none => value
      | some t => (pyConvert t value).getD spec.default

/-- Mirror of utils.SETTING_SPECS, the fixed settings catalog. -/
def SETTING_SPECS : List SettingSpec := [
  ⟨"single_file_session", PyVal.pbool true, some QtType.tbool⟩,
  ⟨"mute_qt_noise", PyVal.pbool true, some QtType.tbool⟩,
  ⟨"coalesce_enabled", PyVal.pbool true, some QtType.tbool⟩,
  ⟨"coalesce_window_sec", PyVal.pfloat 3, some QtType.tfloat⟩,
  ⟨"log_dir", PyVal.pstr "", some QtType.tstr⟩,
  ⟨"keep_full", PyVal.pint 50, some QtType.tint⟩,
  ⟨"keep_errs", PyVal.pint 50, some QtType.tint⟩,
  ⟨"keep_snap", PyVal.pint 50, some QtType.tint⟩,
  ⟨"compress_old", PyVal.pbool false, some QtType.tbool⟩,
  ⟨"autostart", PyVal.pbool true, some QtType.tbool⟩,
  ⟨"level", PyVal.pstr "DEBUG", some QtType.tstr⟩,
  ⟨"hook_processing", PyVal.pbool true, some QtType.tbool⟩,
  ⟨"hook_tasks", PyVal.pbool true, some QtType.tbool⟩,
  ⟨"hook_canvas", PyVal.pbool true, some QtType.tbool⟩,
  ⟨"hook_project", PyVal.pbool true, some QtType.tbool⟩,
  ⟨"json_parallel", PyVal.pbool false, some QtType.tbool⟩,
  ⟨"debug_depth", PyVal.pint 1, some QtType.tint⟩,
  ⟨"scrub_enabled", PyVal.pbool true, some QtType.tbool⟩,
  ⟨"heartbeat_sec", PyVal.pint 120, some QtType.tint⟩,
  ⟨"watchdog_enabled", PyVal.pbool true, some QtType.tbool⟩,
  ⟨"watchdog_idle_sec", PyVal.pint 90, some QtType.tint⟩,
  ⟨"max_log_mb", PyVal.pint 20, some QtType.tint⟩,
  ⟨"rot_backups", PyVal.pint 5, some QtType.tint⟩,
  ⟨"webhook_url", PyVal.pstr "", some QtType.tstr⟩,
  ⟨"theme", PyVal.pstr "auto", some QtType.tstr⟩,
  ⟨"date_format", PyVal.pstr "%Y-%m-%d %H:%M:%S", some QtType.tstr⟩,
  ⟨"tail_lines", PyVal.pint 800, some QtType.tint⟩,
  ⟨"prune_on_start", PyVal.pbool true, some QtType.tbool⟩,
  ⟨"realtime_view", PyVal.pbool false, some QtType.tbool⟩,
  ⟨"gzip_rotate", PyVal.pbool false, some QtType.tbool⟩]

/-- The QSettings persistent store, modelled as a partial map from keys to
raw stored values. -/
def Store : Type := String → Option PyVal

/-- A store in which no key was ever set. -/
def Store.empty : Store := fun _ => Option.none

/-- QSettings.value(key, default): the stored value if present, else the
default. set_setting always stores an already coerced, correctly typed
value, so the Qt-side type conversion is the identity and is not modelled
separately; untyped raw writes surface here unchanged and are handled by
the coerce fallback in get_setting. -/
def Store.value (st : Store) (key : String) (dflt : PyVal) : PyVal :=
  (st key).getD dflt

/-- QSettings.setValue. -/
def Store.setValue (st : Store) (key : String) (v : PyVal) : Store :=
  fun k => if k = key then some v else st k

/-- Catalog lookup, SETTING_SPECS.get(key) in the source. -/
def findSpec (key : String) : Option SettingSpec :=
  SETTING_SPECS.find? (fun spec => spec.key == key)

/-- Mirror of utils.get_setting (the spec is None branch is the raw
passthrough for unknown keys). -/
def get_setting (st : Store) (key : String) : PyVal :=
  match findSpec key with
  | Option.none => (st key).getD PyVal.pnone
  | some spec => spec.coerce (Store.value st key spec.default)

/-- Mirror of utils.set_setting. -/
def set_setting (st : Store) (key : String) (v : PyVal) : Store :=
  match findSpec key with
  | Option.none => Store.setValue st key v
  | some spec => Store.setValue st key (spec.coerce v)

/-- Mirror of utils.load_all_settings. -/
def load_all_settings (st : Store) : List (String × PyVal) :=
  SETTING_SPECS.map (fun spec => (spec.key, get_setting st spec.key))

/-- Mirror of utils.apply_settings: only catalog keys are applied. -/
def apply_settings (st : Store) (update : List (String × PyVal)) : Store :=
  update.foldl
    (fun acc kv => if (findSpec kv.1).isSome then set_setting acc kv.1 kv.2 else acc)
    st

/-- A catalog entry is well typed when it declares a type and its default is
a fixed point of conversion at that type. -/
def SpecWellTyped (spec : SettingSpec) : Prop :=
  ∃ t, spec.qt_type = some t ∧ pyConvert t spec.default = some spec.default

theorem all_specs_well_typed : ∀ spec ∈ SETTING_SPECS, SpecWellTyped spec := by
  intro spec hs
  fin_cases hs <;> exact ⟨_, rfl, rfl⟩

theorem findSpec_self : ∀ spec ∈ SETTING_SPECS, findSpec spec.key = some spec := by
  intro spec hs
  fin_cases hs <;> rfl

/-- Successful conversion never produces the None value. -/
theorem pyConvert_ne_pnone (t : QtType) (v w : PyVal) (h : pyConvert t v = some w) :
    w ≠ PyVal.pnone := by
  intro hw
  subst hw
  cases t <;> cases v <;> simp [pyConvert] at h

/-- Conversion is a projection: converting its own output succeeds and is
the identity. -/
theorem pyConvert_fix (t : QtType) (v w : PyVal) (h : pyConvert t v = some w) :
    pyConvert t w = some w := by
  cases t with
  | tbool =>
    obtain rfl : PyVal.pbool (pyTruthy v) = w := by simpa [pyConvert] using h
    rfl
  | tstr =>
    obtain rfl : PyVal.pstr (pyStrOf v) = w := by simpa [pyConvert] using h
    rfl
  | tint =>
    cases v with
    | pnone => exact absurd h (by simp [pyConvert])
    | pbool b =>
      obtain rfl : PyVal.pint (if b then 1 else 0) = w := by simpa [pyConvert] using h
      rfl
    | pint i =>
      obtain rfl : PyVal.pint i = w := by simpa [pyConvert] using h
      rfl
    | pfloat q =>
      obtain rfl : PyVal.pint (ratTrunc q) = w := by simpa [pyConvert] using h
      rfl
    | pstr s =>
      rw [pyConvert, Option.map_eq_some'] at h
      obtain ⟨n, _, rfl⟩ := h
      rfl
  | tfloat =>
    cases v with
    | pnone => exact absurd h (by simp [pyConvert])
    | pbool b =>
      obtain rfl : PyVal.pfloat (if b then 1 else 0) = w := by simpa [pyConvert] using h
      rfl
    | pint i =>
      obtain rfl : PyVal.pfloat (i : Rat) = w := by simpa [pyConvert] using h
      rfl
    | pfloat q =>
      obtain rfl : PyVal.pfloat q = w := by simpa [pyConvert] using h
      rfl
    | pstr s =>
      rw [pyConvert, Option.map_eq_some'] at h
      obtain ⟨q, _, rfl⟩ := h
      rfl

/-- For a well typed spec, coercing the default gives the default back. -/
theorem coerce_default {spec : SettingSpec} (h : SpecWellTyped spec) :
    spec.coerce spec.default = spec.default := by
  obtain ⟨t, ht, hd⟩ := h
  by_cases hz : spec.default = PyVal.pnone
  · simp [SettingSpec.coerce, hz]
  · simp [SettingSpec.coerce, hz, ht, hd]

/-- For a well typed spec, coerce is idempotent. -/
theorem coerce_idem {spec : SettingSpec} (h : SpecWellTyped spec) (v : PyVal) :
    spec.coerce (spec.coerce v) = spec.coerce v := by
  obtain ⟨t, ht, hd⟩ := h
  by_cases hz : v = PyVal.pnone
  · subst hz
    show spec.coerce (spec.coerce PyVal.pnone) = _
    have h1 : spec.coerce PyVal.pnone = spec.default := by simp [SettingSpec.coerce]
    rw [h1]
    exact coerce_default ⟨t, ht, hd⟩
  · have h1 : spec.coerce v = (pyConvert t v).getD spec.default := by
      simp [SettingSpec.coerce, hz, ht]
    cases hc : pyConvert t v with
    | none =>
      rw [h1, hc]
      exact coerce_default ⟨t, ht, hd⟩
    | some w =>
      rw [h1, hc]
      have hw : w ≠ PyVal.pnone := pyConvert_ne_pnone t v w hc
      simp [SettingSpec.coerce, hw, ht, pyConvert_fix t v w hc]

/-- Reading back the key just written: the raw stored value is coerce v, and
get_setting coerces again. -/
theorem get_set_same {spec : SettingSpec} (hf : findSpec spec.key = some spec)
    (st : Store) (v : PyVal) :
    get_setting (set_setting st spec.key v) spec.key = spec.coerce (spec.coerce v) := by
  simp [get_setting, set_setting, hf, Store.value, Store.setValue]

/-- C1: for every catalog key, get on a never set key returns exactly the
declared default; after set(key, v) with v convertible to the declared
type, get returns the coerced value; and a raw stored value that fails
coercion makes get fall back to the declared default. -/
theorem C1_setting_roundtrip (spec : SettingSpec) (hmem : spec ∈ SETTING_SPECS) :
    get_setting Store.empty spec.key = spec.default ∧
    (∀ (st : Store) (v w : PyVal) (t : QtType), spec.qt_type = some t →
      pyConvert t v = some w →
      get_setting (set_setting st spec.key v) spec.key = spec.coerce v) ∧
    (∀ (st : Store) (u : PyVal) (t : QtType), spec.qt_type = some t →
      st spec.key = some u → pyConvert t u = Option.none →
      get_setting st spec.key = spec.default) := by
  have hwt := all_specs_well_typed spec hmem
  have hf := findSpec_self spec hmem
  refine ⟨?_, ?_, ?_⟩
  · simp [get_setting, hf, Store.empty, Store.value, coerce_default hwt]
  · intro st v w t ht hc
    rw [get_set_same hf st v]
    exact coerce_idem hwt v
  · intro st u t ht hu hfail
    by_cases hun : u = PyVal.pnone
    · subst hun
      simp [get_setting, hf, Store.value, hu, SettingSpec.coerce]
    · simp [get_setting, hf, Store.value, hu, SettingSpec.coerce, hun, ht, hfail]

/-- Witness for C1 at the key keep_full: never set reads give the default
50, a set of the string 42 reads back as the integer 42, and a raw store
holding a non-numeric string reads as the default 50. -/
theorem C1_setting_roundtrip_witness :
    get_setting Store.empty "keep_full" = PyVal.pint 50 ∧
    get_setting (set_setting Store.empty "keep_full" (PyVal.pstr "42")) "keep_full" =
      PyVal.pint 42 ∧
    get_setting (Store.setValue Store.empty "keep_full" (PyVal.pstr "oops")) "keep_full" =
      PyVal.pint 50 := by
  have h := C1_setting_roundtrip ⟨"keep_full", PyVal.pint 50, some QtType.tint⟩ (by decide)
  refine ⟨h.1, ?_, ?_⟩
  · have h2 := h.2.1 Store.empty (PyVal.pstr "42") (PyVal.pint 42) QtType.tint rfl (by decide)
    rw [h2]
    decide
  · exact h.2.2 (Store.setValue Store.empty "keep_full" (PyVal.pstr "oops"))
      (PyVal.pstr "oops") QtType.tint rfl (by simp [Store.setValue]) (by decide)

/-- Mirror of utils.export_settings_json: the exported JSON object is the
full catalog snapshot load_all_settings; file and JSON encoding are
abstracted away (both sides of the round trip use the same encoding). -/
def export_settings_json (st : Store) : List (String × PyVal) :=
  load_all_settings st

/-- Mirror of utils.import_settings_json: parse the file (abstracted) and
apply_settings on the resulting object. -/
def import_settings_json (st : Store) (data : List (String × PyVal)) : Store :=
  apply_settings st data

theorem apply_settings_cons (st : Store) (kv : String × PyVal)
    (rest : List (String × PyVal)) :
    apply_settings st (kv :: rest) =
      apply_settings (if (findSpec kv.1).isSome then set_setting st kv.1 kv.2 else st)
        rest := rfl

/-- Writing one key leaves reads of any other key unchanged. -/
theorem get_setting_set_other (st : Store) (k1 k2 : String) (v : PyVal)
    (hne : k1 ≠ k2) :
    get_setting (set_setting st k2 v) k1 = get_setting st k1 := by
  unfold get_setting set_setting
  cases hf2 : findSpec k2 <;> cases hf1 : findSpec k1 <;>
    simp [Store.value, Store.setValue, hne]

/-- Applying an update that does not mention a key leaves that key
unchanged. -/
theorem apply_settings_not_mem (update : List (String × PyVal)) (k : String) :
    ∀ st : Store, k ∉ update.map Prod.fst →
      get_setting (apply_settings st update) k = get_setting st k := by
  induction update with
  | nil => intro st _; rfl
  | cons kv rest ih =>
    intro st hk
    simp only [List.map_cons, List.mem_cons] at hk
    push_neg at hk
    obtain ⟨hne, hrest⟩ := hk
    rw [apply_settings_cons, ih _ hrest]
    by_cases hs : (findSpec kv.1).isSome
    · simp only [hs, if_true]
      exact get_setting_set_other st k kv.1 kv.2 hne
    · simp [hs]

/-- Applying an update with pairwise distinct keys makes a mentioned
catalog key read back as the double coercion of its supplied value. -/
theorem apply_settings_get (update : List (String × PyVal)) (spec : SettingSpec)
    (hf : findSpec spec.key = some spec) (v : PyVal) :
    ∀ st : Store, (spec.key, v) ∈ update → (update.map Prod.fst).Nodup →
      get_setting (apply_settings st update) spec.key =
        spec.coerce (spec.coerce v) := by
  induction update with
  | nil => intro st hmem _; cases hmem
  | cons kv rest ih =>
    intro st hmem hnd
    rw [apply_settings_cons]
    rw [List.map_cons] at hnd
    have hnd2 := List.nodup_cons.mp hnd
    rcases List.mem_cons.mp hmem with heq | hmemr
    · subst heq
      have hnotin : spec.key ∉ rest.map Prod.fst := hnd2.1
      rw [apply_settings_not_mem rest spec.key _ hnotin]
      have hcond : (findSpec (spec.key, v).1).isSome = true := by
        show (findSpec spec.key).isSome = true
        rw [hf]; rfl
      rw [if_pos hcond]
      exact get_set_same hf st v
    · exact ih _ hmemr hnd2.2

theorem catalog_keys_nodup : (SETTING_SPECS.map SettingSpec.key).Nodup := by decide

theorem load_all_settings_keys (st : Store) :
    (load_all_settings st).map Prod.fst = SETTING_SPECS.map SettingSpec.key := by
  simp [load_all_settings, List.map_map]

/-- Two stores agreeing on every catalog key produce the same snapshot. -/
theorem load_all_settings_congr (st1 st2 : Store)
    (h : ∀ spec ∈ SETTING_SPECS, get_setting st1 spec.key = get_setting st2 spec.key) :
    load_all_settings st1 = load_all_settings st2 := by
  unfold load_all_settings
  apply List.map_congr_left
  intro spec hmem
  rw [h spec hmem]

/-- C2: export followed by import leaves load_all_settings unchanged, and
an imported object containing a key outside the catalog has that key
ignored without effect. -/
theorem C2_export_import_idempotent (st : Store) :
    load_all_settings (import_settings_json st (export_settings_json st)) =
      load_all_settings st ∧
    ∀ (data : List (String × PyVal)) (k : String) (v : PyVal),
      findSpec k = Option.none →
      import_settings_json st (data ++ [(k, v)]) = import_settings_json st data := by
  constructor
  · show load_all_settings (apply_settings st (load_all_settings st)) =
      load_all_settings st
    apply load_all_settings_congr
    intro spec hmem
    have hf := findSpec_self spec hmem
    have hwt := all_specs_well_typed spec hmem
    have harg : (spec.key, get_setting st spec.key) ∈ load_all_settings st :=
      List.mem_map.mpr ⟨spec, hmem, rfl⟩
    have hnd : ((load_all_settings st).map Prod.fst).Nodup := by
      rw [load_all_settings_keys]; exact catalog_keys_nodup
    rw [apply_settings_get (load_all_settings st) spec hf (get_setting st spec.key)
      st harg hnd]
    have hx : get_setting st spec.key =
        spec.coerce (Store.value st spec.key spec.default) := by
      simp [get_setting, hf]
    rw [hx, coerce_idem hwt, coerce_idem hwt]
  · intro data k v hk
    simp [import_settings_json, apply_settings, List.foldl_append, hk]

/-- Witness for C2 on the empty store, with the unknown key zzz_unknown
ignored by import. -/
theorem C2_export_import_idempotent_witness :
    load_all_settings
        (import_settings_json Store.empty (export_settings_json Store.empty)) =
      load_all_settings Store.empty ∧
    import_settings_json Store.empty
        [("keep_full", PyVal.pint 7), ("zzz_unknown", PyVal.pint 1)] =
      import_settings_json Store.empty [("keep_full", PyVal.pint 7)] := by
  refine ⟨(C2_export_import_idempotent Store.empty).1, ?_⟩
  exact (C2_export_import_idempotent Store.empty).2
    [("keep_full", PyVal.pint 7)] "zzz_unknown" (PyVal.pint 1) (by decide)

/-- Mutable watchdog state of qgis_monitor: the last time any record passed
the logger level _WatchdogTap filter, and the _watchdog_warned flag. -/
structure WatchdogState where
  lastEmit : Rat
  warned : Bool
deriving DecidableEq, Repr

/-- Observable effects of one _watchdog_check call: the WARNING log line,
the _notify_webhook("watchdog_idle", ...) call (the url check happens
inside _notify_webhook), and the activity resumed INFO line. -/
inductive WatchdogEvent where
  | warnIdle (idleSeconds : Rat)
  | webhookIdle (idleSeconds : Rat)
  | resumeInfo
deriving DecidableEq, Repr

/-- Effective idle threshold: max(10, int(get_setting("watchdog_idle_sec")
or 60)); the or 60 branch fires when the stored value is 0. -/
def watchdogIdleEff (raw : Int) : Int := max 10 (if raw = 0 then 60 else raw)

/-- Timer interval in milliseconds chosen by start_watchdog:
max(2000, min(10000, idle_sec * 1000 / 3)). -/
def watchdogInterval (idleSec : Int) : Int :=
  max 2000 (min 10000 (idleSec * 1000 / 3))

/-- Mirror of _watchdog_check. The logger.warning and logger.info calls it
makes themselves pass the logger level _WatchdogTap filter, which sets
_last_log_emit to the current time; the model therefore updates lastEmit
on the branches that log. -/
def watchdogCheck (enabled : Bool) (idleRaw : Int) (now : Rat)
    (st : WatchdogState) : WatchdogState × List WatchdogEvent :=
  if enabled = false then (st, [])
  else
    let idleSec : Rat := (watchdogIdleEff idleRaw : Int)
    let delta := now - st.lastEmit
    if delta ≥ idleSec then
      if st.warned = false then
        ({ lastEmit := now, warned := true },
          [WatchdogEvent.warnIdle delta, WatchdogEvent.webhookIdle delta])
      else (st, [])
    else
      if st.warned = true then
        ({ lastEmit := now, warned := false }, [WatchdogEvent.resumeInfo])
      else (st, [])

/-- A log record emitted from outside the watchdog: the _WatchdogTap logger
filter records its timestamp. -/
def watchdogLogEmit (now : Rat) (st : WatchdogState) : WatchdogState :=
  { st with lastEmit := now }

/-- Run a sequence of timer driven watchdog checks with no interleaved
external log records, collecting all emitted events. -/
def watchdogRun (enabled : Bool) (idleRaw : Int) (st : WatchdogState)
    (times : List Rat) : WatchdogState × List WatchdogEvent :=
  times.foldl
    (fun acc t =>
      let step := watchdogCheck enabled idleRaw t acc.1
      (step.1, acc.2 ++ step.2))
    (st, [])

/-- True exactly for the WARNING watchdog line. -/
def isWarnEvent : WatchdogEvent → Bool
  | WatchdogEvent.warnIdle _ => true
  | _ => false

/-- Number of watchdog WARNING lines in an event trace. -/
def countWarnings (evs : List WatchdogEvent) : Nat :=
  (evs.filter isWarnEvent).length

/-- C3, evaluated at the failing input: watchdog enabled with
watchdog_idle_sec = 30 (timer interval 10 s), last log record at t = 0 and
no log record from outside the watchdog afterwards. The timer checks at
t = 10, 20, ..., 70 emit a first WARNING plus webhook at t = 30, then a
spurious activity resumed INFO line at t = 40 (the warning itself reset
the idle clock through the logger level tap and cleared the warned flag on
the next check), and a second WARNING plus webhook at t = 70 inside the
same continuous idle period. The claim, and the stated intent of the
warned flag and of the resume message, require exactly one WARNING until
a non watchdog record arrives; the code emits two. -/
theorem C3_watchdog_repeats_on_idle :
    watchdogInterval 30 = 10000 ∧
    (watchdogRun true 30 ⟨0, false⟩ [10, 20, 30, 40, 50, 60, 70]).2 =
      [WatchdogEvent.warnIdle 30, WatchdogEvent.webhookIdle 30,
       WatchdogEvent.resumeInfo,
       WatchdogEvent.warnIdle 30, WatchdogEvent.webhookIdle 30] ∧
    countWarnings (watchdogRun true 30 ⟨0, false⟩ [10, 20, 30, 40, 50, 60, 70]).2 = 2 := by
  have hev : (watchdogRun true 30 ⟨0, false⟩ [10, 20, 30, 40, 50, 60, 70]).2 =
      [WatchdogEvent.warnIdle 30, WatchdogEvent.webhookIdle 30,
       WatchdogEvent.resumeInfo,
       WatchdogEvent.warnIdle 30, WatchdogEvent.webhookIdle 30] := by
    norm_num [watchdogRun, watchdogCheck, watchdogIdleEff, List.foldl]
  refine ⟨by decide, hev, ?_⟩
  rw [hev]
  rfl

/-- Engine visible state touched by qgismonitor_start and by
_qmp_enhance_bootstrap. jsonPath is the JSON_PATH module global,
engineHandlers counts the handlers attached by _install_handlers (memory,
errors, console), jsonlHandlers counts the _JsonlHandler instances the
bootstrap attached, and the remaining counters record how many times a
process wide resource was re-applied. -/
structure EngineState where
  started : Bool
  pathsSet : Bool
  jsonPath : Option String
  engineHandlers : Nat
  jsonlHandlers : Nat
  handlerInstalls : Nat
  timersRunning : Bool
  excepthookInstalls : Nat
  stderrRedirects : Nat
  msgLogSubscriptions : Nat
  rateLimitFilterAdds : Nat
  latestTxtWrites : Nat
deriving DecidableEq, Repr

/-- A fresh interpreter session: nothing installed, nothing started. -/
def freshEngine : EngineState :=
  { started := false, pathsSet := false, jsonPath := Option.none,
    engineHandlers := 0, jsonlHandlers := 0, handlerInstalls := 0,
    timersRunning := false, excepthookInstalls := 0, stderrRedirects := 0,
    msgLogSubscriptions := 0, rateLimitFilterAdds := 0, latestTxtWrites := 0 }

/-- Mirror of _qmp_enhance_bootstrap, with ts the timestamp it derives from
the current full log name (or from the clock when no log file is set).
It computes and stores JSON_PATH only when the global is unset, but it
attaches a fresh _JsonlHandler on every call: the guard checks whether
some attached handler class name lowercased starts with "jsonl", and
"_JsonlHandler".lower() = "_jsonlhandler" starts with an underscore (nor
does any other handler class here match), so the guard never fires. It
then unconditionally replaces sys.excepthook, replaces sys.stderr with a
fresh _ErrStream, connects one more messageReceived subscription, adds one
more RateLimitFilter to the handlers, and rewrites latest.txt twice (the
rewrite block appears twice in the function body). -/
def qmpEnhanceBootstrap (ts : String) (st : EngineState) : EngineState :=
  { st with
    jsonPath := some (st.jsonPath.getD ("qgis_json_" ++ ts ++ ".jsonl")),
    jsonlHandlers := st.jsonlHandlers + 1,
    excepthookInstalls := st.excepthookInstalls + 1,
    stderrRedirects := st.stderrRedirects + 1,
    msgLogSubscriptions := st.msgLogSubscriptions + 1,
    rateLimitFilterAdds := st.rateLimitFilterAdds + 1,
    latestTxtWrites := st.latestTxtWrites + 2 }

/-- Mirror of qgismonitor_start: the enhancement bootstrap runs first,
unconditionally, and only then does the started guard return early. A
first start additionally resolves paths (_setup_paths in the fresh
allocation case sets JSON_PATH to the parallel jsonl path when
json_parallel is enabled and to None otherwise, overwriting what the
bootstrap computed), installs handlers (_install_handlers first removes
and closes every handler on the logger, dropping the JSONL handlers the
bootstrap attached, then installs the memory, errors and console
handlers), starts the timers, writes latest.txt and sets the started
flag. -/
def qgismonitorStart (jsonParallel : Bool) (ts : String) (st : EngineState) :
    EngineState :=
  let st1 := qmpEnhanceBootstrap ts st
  if st1.started then st1
  else
    { st1 with
      started := true,
      pathsSet := true,
      jsonPath :=
        if jsonParallel then some ("qgis_full_" ++ ts ++ ".jsonl")
        else Option.none,
      engineHandlers := 3,
      jsonlHandlers := 0,
      handlerInstalls := st1.handlerInstalls + 1,
      timersRunning := true,
      latestTxtWrites := st1.latestTxtWrites + 1 }

/-- Counterexample for C4 as stated: with json_parallel disabled, starting
twice is not the same engine visible state as starting once. The second
call runs the enhancement bootstrap before the started guard, so it
attaches a new JSONL handler (the first start had dropped the earlier one
when _install_handlers cleared the logger) and recomputes the JSON_PATH
global that _setup_paths had reset to None, besides re-applying the
process wide hooks. -/
theorem C4_second_start_not_noop :
    qgismonitorStart false "B" (qgismonitorStart false "A" freshEngine) ≠
      qgismonitorStart false "A" freshEngine ∧
    (qgismonitorStart false "A" freshEngine).jsonlHandlers = 0 ∧
    (qgismonitorStart false "B"
        (qgismonitorStart false "A" freshEngine)).jsonlHandlers = 1 ∧
    (qgismonitorStart false "A" freshEngine).jsonPath = Option.none ∧
    (qgismonitorStart false "B"
        (qgismonitorStart false "A" freshEngine)).jsonPath =
      some "qgis_json_B.jsonl" := by decide

/-- C4 amended: once the engine is started, a further qgismonitor_start
call performs exactly the unconditional enhancement bootstrap. The
engine core is untouched: the started flag, the resolved paths, the
handlers installed by _install_handlers and the timers are unchanged. But
the call is not a no-op: it attaches one more JSONL handler, fills in the
JSON_PATH global when it is unset (which is the state a first start with
json_parallel disabled leaves behind), re-applies sys.excepthook and the
sys.stderr redirection, connects one more host message log subscription,
adds one more rate limit filter and rewrites latest.txt. -/
theorem C4_second_start_bootstrap_only (jp : Bool) (ts : String)
    (st : EngineState) (h : st.started = true) :
    qgismonitorStart jp ts st = qmpEnhanceBootstrap ts st ∧
    (qgismonitorStart jp ts st).started = st.started ∧
    (qgismonitorStart jp ts st).pathsSet = st.pathsSet ∧
    (qgismonitorStart jp ts st).engineHandlers = st.engineHandlers ∧
    (qgismonitorStart jp ts st).handlerInstalls = st.handlerInstalls ∧
    (qgismonitorStart jp ts st).timersRunning = st.timersRunning ∧
    (qgismonitorStart jp ts st).jsonlHandlers = st.jsonlHandlers + 1 ∧
    (qgismonitorStart jp ts st).jsonPath =
      some (st.jsonPath.getD ("qgis_json_" ++ ts ++ ".jsonl")) ∧
    (qgismonitorStart jp ts st).stderrRedirects = st.stderrRedirects + 1 ∧
    (qgismonitorStart jp ts st).msgLogSubscriptions = st.msgLogSubscriptions + 1 := by
  have hb : (qmpEnhanceBootstrap ts st).started = true := by
    simp [qmpEnhanceBootstrap, h]
  unfold qgismonitorStart
  rw [if_pos hb]
  simp [qmpEnhanceBootstrap, h]

/-- Witness for C4 amended on the concrete state after a first start with
json_parallel disabled: the second call equals the bootstrap alone, goes
from zero to one JSONL handler, and sets the JSON_PATH global that the
first start left at None. -/
theorem C4_second_start_bootstrap_only_witness :
    (qgismonitorStart false "A" freshEngine).started = true ∧
    qgismonitorStart false "B" (qgismonitorStart false "A" freshEngine) =
      qmpEnhanceBootstrap "B" (qgismonitorStart false "A" freshEngine) ∧
    (qgismonitorStart false "B"
        (qgismonitorStart false "A" freshEngine)).jsonlHandlers =
      (qgismonitorStart false "A" freshEngine).jsonlHandlers + 1 ∧
    (qgismonitorStart false "B"
        (qgismonitorStart false "A" freshEngine)).jsonPath =
      some ((qgismonitorStart false "A" freshEngine).jsonPath.getD
        ("qgis_json_" ++ "B" ++ ".jsonl")) := by
  have h := C4_second_start_bootstrap_only false "B"
    (qgismonitorStart false "A" freshEngine) (by decide)
  exact ⟨by decide, h.1, h.2.2.2.2.2.2.1, h.2.2.2.2.2.2.2.1⟩

/-- Resolved log file locations for one monitoring session. -/
structure LogPaths where
  logFile : String
  errPath : String
  jsonPath : Option String
deriving DecidableEq, Repr

/-- Fresh timestamped paths as allocated by _setup_paths; os.path.join and
_normpath are abstracted as slash concatenation. -/
def mkTimestampPaths (logDir suffix ts : String) (jsonParallel : Bool) : LogPaths :=
  { logFile := logDir ++ "/qgis_full_" ++ ts ++ suffix ++ ".log",
    errPath := logDir ++ "/qgis_errors_" ++ ts ++ suffix ++ ".log",
    jsonPath :=
      if jsonParallel then some (logDir ++ "/qgis_full_" ++ ts ++ suffix ++ ".jsonl")
      else Option.none }

/-- Result of _setup_paths: the resolved paths together with the
qgismonitor_paths property bag entry after the call. -/
structure SetupResult where
  paths : LogPaths
  cache : Option LogPaths
deriving DecidableEq, Repr

/-- Mirror of _setup_paths. reuse is the single_file_session setting, cache
the qgismonitor_paths property on the application instance, and
fullFileStillExists says whether the cached full log still exists on disk;
the code never consults that last input. -/
def setupPaths (reuse : Bool) (cache : Option LogPaths)
    (fullFileStillExists : Bool) (logDir suffix ts : String)
    (jsonParallel : Bool) : SetupResult :=
  let cached := if reuse then cache else Option.none
  match cached with
  | some p => { paths := p, cache := cache }
  | Option.none =>
    let fresh := mkTimestampPaths logDir suffix ts jsonParallel
    { paths := fresh, cache := if reuse then some fresh else cache }

/-- Counterexample for C5 as stated: with single_file_session enabled and a
cached path set whose referenced full log no longer exists on disk
(fullFileStillExists = false), _setup_paths still resolves to the cached
paths instead of allocating the new timestamped paths the claim requires. -/
theorem C5_reuse_ignores_missing_file :
    (setupPaths true
        (some ⟨"d/qgis_full_A.log", "d/qgis_errors_A.log", Option.none⟩)
        false "d" "_p" "B" false).paths =
      ⟨"d/qgis_full_A.log", "d/qgis_errors_A.log", Option.none⟩ ∧
    (⟨"d/qgis_full_A.log", "d/qgis_errors_A.log", Option.none⟩ : LogPaths) ≠
      mkTimestampPaths "d" "_p" "B" false := by
  exact ⟨rfl, by decide⟩

/-- Middle segment of a three part concatenation is determined by the
whole string when the outer parts are fixed. -/
theorem string_append_mid_inj (a b x y : String)
    (h : a ++ x ++ b = a ++ y ++ b) : x = y := by
  have h2 := congrArg String.data h
  simp only [String.data_append] at h2
  have h3 : a.data ++ x.data = a.data ++ y.data := List.append_cancel_right h2
  have h4 : x.data = y.data := List.append_cancel_left h3
  obtain ⟨l1⟩ := x
  obtain ⟨l2⟩ := y
  have h5 : l1 = l2 := h4
  rw [h5]

/-- C5 amended: the cached paths are reused exactly when
single_file_session is enabled and a cached path set exists, with no check
that the referenced full log still exists on disk; otherwise new
timestamped paths are allocated and cached only when single_file_session
is enabled. Consequently two start cycles with single_file_session enabled
resolve to the same paths, and with it disabled to distinct timestamped
paths whenever the timestamps differ. -/
theorem C5_path_reuse_amended :
    (∀ (p : LogPaths) (cache : Option LogPaths) (fe : Bool) (d sfx ts : String)
        (jp : Bool), cache = some p →
      setupPaths true cache fe d sfx ts jp = { paths := p, cache := cache }) ∧
    (∀ (fe : Bool) (d sfx ts : String) (jp : Bool),
      setupPaths true Option.none fe d sfx ts jp =
        { paths := mkTimestampPaths d sfx ts jp,
          cache := some (mkTimestampPaths d sfx ts jp) }) ∧
    (∀ (cache : Option LogPaths) (fe : Bool) (d sfx ts : String) (jp : Bool),
      setupPaths false cache fe d sfx ts jp =
        { paths := mkTimestampPaths d sfx ts jp, cache := cache }) ∧
    (∀ (fe1 fe2 : Bool) (d sfx ts1 ts2 : String) (jp : Bool),
      (setupPaths true (setupPaths true Option.none fe1 d sfx ts1 jp).cache fe2
          d sfx ts2 jp).paths =
        (setupPaths true Option.none fe1 d sfx ts1 jp).paths) ∧
    (∀ (c1 c2 : Option LogPaths) (fe1 fe2 : Bool) (d sfx ts1 ts2 : String)
        (jp : Bool), ts1 ≠ ts2 →
      (setupPaths false c1 fe1 d sfx ts1 jp).paths ≠
        (setupPaths false c2 fe2 d sfx ts2 jp).paths) := by
  refine ⟨?_, ?_, ?_, ?_, ?_⟩
  · intro p cache fe d sfx ts jp hc
    subst hc
    rfl
  · intro fe d sfx ts jp
    rfl
  · intro cache fe d sfx ts jp
    rfl
  · intro fe1 fe2 d sfx ts1 ts2 jp
    rfl
  · intro c1 c2 fe1 fe2 d sfx ts1 ts2 jp hne heq
    apply hne
    have hlog : (mkTimestampPaths d sfx ts1 jp).logFile =
        (mkTimestampPaths d sfx ts2 jp).logFile := congrArg LogPaths.logFile heq
    have hs : (d ++ "/qgis_full_") ++ ts1 ++ (sfx ++ ".log") =
        (d ++ "/qgis_full_") ++ ts2 ++ (sfx ++ ".log") := by
      simpa [mkTimestampPaths, String.append_assoc] using hlog
    exact string_append_mid_inj _ _ _ _ hs

/-- Witness for C5 amended at concrete inputs. -/
theorem C5_path_reuse_amended_witness :
    setupPaths true (some (mkTimestampPaths "d" "_p" "A" false)) true "d" "_p" "B" false =
      { paths := mkTimestampPaths "d" "_p" "A" false,
        cache := some (mkTimestampPaths "d" "_p" "A" false) } ∧
    (setupPaths false Option.none true "d" "_p" "A" false).paths ≠
      (setupPaths false Option.none true "d" "_p" "B" false).paths := by
  constructor
  · exact (C5_path_reuse_amended.1) (mkTimestampPaths "d" "_p" "A" false)
      (some (mkTimestampPaths "d" "_p" "A" false)) true "d" "_p" "B" false rfl
  · exact (C5_path_reuse_amended.2.2.2.2) Option.none Option.none true true
      "d" "_p" "A" "B" false (by decide)

/-- State of one tail session of the consolidated live log dock
(log_viewer.LiveLogDock backed by _TailSession): the handle offset and the
last observed file size from the FileSnapshot. -/
structure TailSession where
  position : Nat
  lastSize : Nat
deriving DecidableEq, Repr

/-- Read of _TailSession.read_new against the current file content: the
handle returns everything from the current offset (empty when the offset
is at or past end of file), the offset moves to the tell position and the
snapshot records the current size. No size comparison happens anywhere on
this path. -/
def readNew (content : String) (s : TailSession) : String × TailSession :=
  (((content.toList).drop s.position).asString,
    { position := max s.position content.toList.length,
      lastSize := content.toList.length })

/-- The read performed by one _tick of the consolidated dock: read_new on
the open session; the tick appends whatever text comes back. -/
def consolidatedTickRead (content : String) (s : TailSession) : String × TailSession :=
  readNew content s

/-- The read performed by one _tick of the earlier procedural dock
(log_viewer[1].LiveLogDock): the current size is compared with the last
observed size and a shrink resets the offset to zero before reading. -/
def legacyTickRead (content : String) (pos lastSize : Nat) : String × Nat × Nat :=
  let size := content.toList.length
  let pos1 := if size < lastSize then 0 else pos
  (((content.toList).drop pos1).asString, max pos1 size, size)

/-- Counterexample for C6 as stated: a tail session at offset 100 with last
observed size 100, after the file is replaced by a 10 byte file, reads the
empty string on the next consolidated tick instead of restarting at offset
0 and returning the new content. -/
theorem C6_consolidated_tick_empty_read :
    (consolidatedTickRead "0123456789" ⟨100, 100⟩).1 = "" ∧
    "0123456789" ≠ "" := by decide

/-- C6 amended: the truncation restart behaviour holds in the earlier
procedural viewer, whose tick compares sizes and reopens from offset zero:
whenever the current content is shorter than the last observed size, the
read starts at offset 0 and returns the entire new content. The
consolidated class based viewer performs no size comparison and returns an
empty read in that situation. -/
theorem asString_data (s : String) : s.data.asString = s := by
  obtain ⟨l⟩ := s
  rfl

theorem C6_legacy_tick_rotation (content : String) (pos lastSize : Nat)
    (hshrink : content.toList.length < lastSize) :
    legacyTickRead content pos lastSize =
      (content, content.toList.length, content.toList.length) := by
  have hs2 : content.length < lastSize := by simpa using hshrink
  simp [legacyTickRead, hs2, asString_data]

/-- Witness for C6 amended: the 10 byte replacement file is returned in
full by the legacy tick from a session that was at offset 100. -/
theorem C6_legacy_tick_rotation_witness :
    legacyTickRead "0123456789" 100 100 = ("0123456789", 10, 10) := by
  have h := C6_legacy_tick_rotation "0123456789" 100 100 (by decide)
  simpa using h

/-- The coalesce cache _COALESCE: an association list from (levelno, key
text) to (repeat count, time of the last distinct emission). -/
abbrev CoalesceCache := List ((Int × String) × (Nat × Rat))

/-- Dictionary get with the default (0, 0.0) used by CoalesceFilter. -/
def cacheGet (c : CoalesceCache) (k : Int × String) : Nat × Rat :=
  ((c.find? (fun e => e.1 == k)).map Prod.snd).getD (0, 0)

/-- Dictionary assignment. -/
def cacheSet (c : CoalesceCache) (k : Int × String) (v : Nat × Rat) : CoalesceCache :=
  if (c.find? (fun e => e.1 == k)).isSome then
    c.map (fun e => if e.1 == k then (k, v) else e)
  else c ++ [(k, v)]

/-- Substring containment on character lists ("http" in msg). -/
def listHasInfix (pat : List Char) : List Char → Bool
  | [] => pat.isEmpty
  | c :: rest => pat.isPrefixOf (c :: rest) || listHasInfix pat rest

/-- Mirror of _coalesce_key: when the text mentions http, everything from
the first question mark or ampersand is stripped; the result is truncated
to 512 characters and paired with the level number. -/
def coalesceKey (levelno : Int) (msg : String) : Int × String :=
  let m :=
    if listHasInfix "http".toList msg.toList then
      (msg.toList.takeWhile (fun c => c != '?' && c != '&')).asString
    else msg
  (levelno, (m.toList.take 512).asString)

/-- Result of one CoalesceFilter.filter call: the updated cache, whether
the record passes to the handler, and any summary line (repeat count and
key text) logged by this call. -/
structure CoalesceResult where
  cache : CoalesceCache
  passed : Bool
  summaries : List (Nat × String)
deriving DecidableEq, Repr

/-- Mirror of CoalesceFilter.filter. Within the window the record is
suppressed and the count incremented (the window anchor is not moved);
outside the window a pending count is flushed as one summary line, the
entry is reset to (0, now) and the record passes. -/
def coalesceFilter (enabled : Bool) (win now : Rat) (levelno : Int)
    (msg : String) (cache : CoalesceCache) : CoalesceResult :=
  if enabled = false then ⟨cache, true, []⟩
  else
    let key := coalesceKey levelno msg
    let cl := cacheGet cache key
    if now - cl.2 ≤ win then
      ⟨cacheSet cache key (cl.1 + 1, cl.2), false, []⟩
    else
      ⟨cacheSet cache key (0, now), true,
        if 0 < cl.1 then [(cl.1, key.2)] else []⟩

/-- Mirror of _flush_coalesce_summary: clears the cache and logs one
summary per entry with a positive repeat count. -/
def flushCoalesceSummary (cache : CoalesceCache) :
    CoalesceCache × List (Nat × String) :=
  ([], (cache.filter (fun e => decide (0 < e.2.1))).map (fun e => (e.2.1, e.1.2)))

/-- A sequence of emissions of the same (level, message) record at the
given times, collecting pass verdicts and summary lines. -/
def coalesceRun (enabled : Bool) (win : Rat) (lvl : Int) (msg : String)
    (cache : CoalesceCache) (times : List Rat) :
    CoalesceCache × List Bool × List (Nat × String) :=
  times.foldl
    (fun acc t =>
      let r := coalesceFilter enabled win t lvl msg acc.1
      (r.cache, acc.2.1 ++ [r.passed], acc.2.2 ++ r.summaries))
    (cache, [], [])

theorem cacheGet_nil (k : Int × String) : cacheGet [] k = (0, 0) := rfl

theorem cacheSet_nil (k : Int × String) (v : Nat × Rat) :
    cacheSet [] k v = [(k, v)] := rfl

theorem cacheGet_single (k : Int × String) (v : Nat × Rat) :
    cacheGet [(k, v)] k = v := by
  simp [cacheGet, List.find?]

theorem cacheSet_single (k : Int × String) (v w : Nat × Rat) :
    cacheSet [(k, v)] k w = [(k, w)] := by
  simp [cacheSet, List.find?]

/-- C7: with coalescing enabled, five emissions of the same record, the
first at a time beyond the initial window anchor and the other four within
the window of the first, pass exactly the first and suppress the other
four with no summary yet; a sixth emission after the window has elapsed
passes as a new first occurrence and logs exactly one summary reporting 4
suppressed repeats; equivalently, a periodic flush after the five
emissions logs exactly that one summary. -/
theorem C7_coalesce_window (lvl : Int) (msg : String) (win t0 t1 t2 t3 t4 t5 : Rat)
    (h0 : win < t0)
    (h1 : t1 - t0 ≤ win) (h2 : t2 - t0 ≤ win) (h3 : t3 - t0 ≤ win)
    (h4 : t4 - t0 ≤ win) (h5 : win < t5 - t0) :
    coalesceRun true win lvl msg [] [t0, t1, t2, t3, t4] =
      ([(coalesceKey lvl msg, (4, t0))],
       [true, false, false, false, false], []) ∧
    (coalesceFilter true win t5 lvl msg [(coalesceKey lvl msg, (4, t0))]).passed =
      true ∧
    (coalesceFilter true win t5 lvl msg [(coalesceKey lvl msg, (4, t0))]).summaries =
      [(4, (coalesceKey lvl msg).2)] ∧
    flushCoalesceSummary [(coalesceKey lvl msg, (4, t0))] =
      ([], [(4, (coalesceKey lvl msg).2)]) := by
  have e0 : coalesceFilter true win t0 lvl msg [] =
      ⟨[(coalesceKey lvl msg, (0, t0))], true, []⟩ := by
    simp [coalesceFilter, cacheGet_nil, cacheSet_nil, h0]
  have e1 : coalesceFilter true win t1 lvl msg [(coalesceKey lvl msg, (0, t0))] =
      ⟨[(coalesceKey lvl msg, (1, t0))], false, []⟩ := by
    simp [coalesceFilter, cacheGet_single, cacheSet_single, h1]
  have e2 : coalesceFilter true win t2 lvl msg [(coalesceKey lvl msg, (1, t0))] =
      ⟨[(coalesceKey lvl msg, (2, t0))], false, []⟩ := by
    simp [coalesceFilter, cacheGet_single, cacheSet_single, h2]
  have e3 : coalesceFilter true win t3 lvl msg [(coalesceKey lvl msg, (2, t0))] =
      ⟨[(coalesceKey lvl msg, (3, t0))], false, []⟩ := by
    simp [coalesceFilter, cacheGet_single, cacheSet_single, h3]
  have e4 : coalesceFilter true win t4 lvl msg [(coalesceKey lvl msg, (3, t0))] =
      ⟨[(coalesceKey lvl msg, (4, t0))], false, []⟩ := by
    simp [coalesceFilter, cacheGet_single, cacheSet_single, h4]
  have e5 : coalesceFilter true win t5 lvl msg [(coalesceKey lvl msg, (4, t0))] =
      ⟨[(coalesceKey lvl msg, (0, t5))], true, [(4, (coalesceKey lvl msg).2)]⟩ := by
    have h5b : win + t0 < t5 := by linarith
    simp [coalesceFilter, cacheGet_single, cacheSet_single, h5b]
  refine ⟨?_, ?_, ?_, ?_⟩
  · simp [coalesceRun, List.foldl, e0, e1, e2, e3, e4]
  · rw [e5]
  · rw [e5]
  · simp [flushCoalesceSummary]

/-- Witness for C7 with window 3 and emission times 10, 11, 11, 12, 13 and
a sixth emission at 14. -/
theorem C7_coalesce_window_witness :
    (coalesceRun true 3 20 "overlap warning" [] [10, 11, 11, 12, 13]).2.1 =
      [true, false, false, false, false] ∧
    (coalesceFilter true 3 14 20 "overlap warning"
        [(coalesceKey 20 "overlap warning", (4, 10))]).summaries =
      [(4, (coalesceKey 20 "overlap warning").2)] := by
  have h := C7_coalesce_window 20 "overlap warning" 3 10 11 11 12 13 14
    (by norm_num) (by norm_num) (by norm_num) (by norm_num) (by norm_num)
    (by norm_num)
  refine ⟨?_, h.2.2.1⟩
  rw [h.1]

/-- Outcome of a Python call: a normal return or a raised exception
carrying its formatted traceback text. -/
inductive PyOutcome (r : Type) where
  | returns (a : r)
  | raises (tb : String)
deriving DecidableEq, Repr

/-- Correlation id generation: uuid.uuid4().hex[:12]. -/
def corrOf (uuidHex : String) : String :=
  (uuidHex.toList.take 12).asString

/-- Append to the breadcrumb ring buffer of capacity 400 (deque with
maxlen 400: oldest entries are evicted from the left). -/
def pushCrumb (crumbs : List String) (entry : String) : List String :=
  let l := crumbs ++ [entry]
  if 400 < l.length then l.drop (l.length - 400) else l

/-- The last n entries of a list (the slice [-n:] in the source). -/
def lastN (n : Nat) (l : List String) : List String :=
  l.drop (l.length - n)

/-- Observable effects of one invocation of the wrapped processing run:
the START info line, the optional parameter DEBUG line, the DONE info
line, the single FAIL error line (with correlation id, algorithm,
breadcrumb tail and traceback), and the processing_fail webhook call. -/
inductive ProcEvent where
  | startInfo (alg corr : String)
  | paramsDebug (alg corr : String)
  | doneInfo (alg corr : String)
  | failError (alg corr : String) (crumbs : List String) (tb : String)
  | webhookCall (event alg corr : String)
deriving DecidableEq, Repr

/-- True exactly for the ERROR level line among the events above. -/
def isErrorEvent : ProcEvent → Bool
  | ProcEvent.failError _ _ _ _ => true
  | _ => false

/-- Mirror of the run wrapper installed by _install_processing_hooks: the
correlation id is the first 12 characters of the uuid4 hex; a breadcrumb
is recorded and START logged; parameters are logged at DEBUG when
debug_depth is positive and parameters were supplied; on an exception
exactly one ERROR line is logged carrying the correlation id, the
algorithm, the last 100 breadcrumbs and the full traceback, then the
processing_fail webhook fires (the event reaches the network only when a
webhook url is configured, the check _notify_webhook performs), and the
exception is re-raised unchanged. The DEBUG line logged inside crumb
itself is not tracked, being irrelevant to every claim here. -/
def processingRun {r : Type} (alg uuidHex : String) (hasParams : Bool)
    (debugDepth : Int) (crumbs : List String) (webhookUrl : String)
    (outcome : PyOutcome r) : PyOutcome r × List ProcEvent :=
  let corr := corrOf uuidHex
  let crumbs1 := pushCrumb crumbs ("processing:start " ++ alg ++ " " ++ corr)
  let pre := [ProcEvent.startInfo alg corr] ++
    (if 0 < debugDepth ∧ hasParams = true then [ProcEvent.paramsDebug alg corr]
     else [])
  match outcome with
  | PyOutcome.returns a =>
    (PyOutcome.returns a, pre ++ [ProcEvent.doneInfo alg corr])
  | PyOutcome.raises tb =>
    (PyOutcome.raises tb,
      pre ++ [ProcEvent.failError alg corr (lastN 100 crumbs1) tb] ++
        (if webhookUrl ≠ "" then
          [ProcEvent.webhookCall "processing_fail" alg corr]
         else []))

/-- Lowercase hexadecimal digit, the alphabet of uuid4().hex. -/
def isHexChar (c : Char) : Bool :=
  c.isDigit || (decide ('a' ≤ c) && decide (c ≤ 'f'))

theorem toList_asString (l : List Char) : l.asString.toList = l := rfl

/-- C8: when the wrapped algorithm run raises, the wrapper logs exactly one
ERROR event, that event carries the 12 character correlation id (drawn
from the hex alphabet of the uuid), the algorithm identifier, the last 100
breadcrumbs and the traceback, the processing_fail webhook fires because a
url is configured, and the original exception is re-raised unchanged. -/
theorem C8_processing_fail_contract {r : Type} (alg uuidHex : String)
    (hasParams : Bool) (debugDepth : Int) (crumbs : List String)
    (url tb : String)
    (hlen : 12 ≤ uuidHex.toList.length)
    (hhex : ∀ c ∈ uuidHex.toList, isHexChar c = true)
    (hurl : url ≠ "") :
    (processingRun (r := r) alg uuidHex hasParams debugDepth crumbs url
        (PyOutcome.raises tb)).1 = PyOutcome.raises tb ∧
    ((processingRun (r := r) alg uuidHex hasParams debugDepth crumbs url
        (PyOutcome.raises tb)).2.filter isErrorEvent).length = 1 ∧
    (corrOf uuidHex).toList.length = 12 ∧
    (∀ c ∈ (corrOf uuidHex).toList, isHexChar c = true) ∧
    ProcEvent.failError alg (corrOf uuidHex)
        (lastN 100
          (pushCrumb crumbs ("processing:start " ++ alg ++ " " ++ corrOf uuidHex)))
        tb ∈
      (processingRun (r := r) alg uuidHex hasParams debugDepth crumbs url
        (PyOutcome.raises tb)).2 ∧
    ProcEvent.webhookCall "processing_fail" alg (corrOf uuidHex) ∈
      (processingRun (r := r) alg uuidHex hasParams debugDepth crumbs url
        (PyOutcome.raises tb)).2 := by
  refine ⟨rfl, ?_, ?_, ?_, ?_, ?_⟩
  · by_cases hp : 0 < debugDepth ∧ hasParams = true <;>
      simp [processingRun, isErrorEvent, hp, hurl]
  · rw [corrOf, toList_asString, List.length_take]
    exact Nat.min_eq_left hlen
  · intro c hc
    rw [corrOf, toList_asString] at hc
    exact hhex c (List.take_subset 12 uuidHex.toList hc)
  · by_cases hp : 0 < debugDepth ∧ hasParams = true <;>
      simp [processingRun, hp, hurl]
  · by_cases hp : 0 < debugDepth ∧ hasParams = true <;>
      simp [processingRun, hp, hurl]

/-- Witness for C8 at a concrete failing buffer run. -/
theorem C8_processing_fail_contract_witness :
    (processingRun (r := Unit) "native:buffer"
        "0123456789abcdef0123456789abcdef" true 1 [] "http://hook.example"
        (PyOutcome.raises "Traceback: boom")).1 =
      PyOutcome.raises "Traceback: boom" ∧
    ((processingRun (r := Unit) "native:buffer"
        "0123456789abcdef0123456789abcdef" true 1 [] "http://hook.example"
        (PyOutcome.raises "Traceback: boom")).2.filter isErrorEvent).length = 1 ∧
    (corrOf "0123456789abcdef0123456789abcdef").toList.length = 12 := by
  have h := C8_processing_fail_contract (r := Unit) "native:buffer"
    "0123456789abcdef0123456789abcdef" true 1 [] "http://hook.example"
    "Traceback: boom" (by decide) (by decide) (by decide)
  exact ⟨h.1, h.2.1, h.2.2.1⟩

/-- Filesystem outcomes visible to write_diagnostics_txt: whether the
directory creation (target_dir.mkdir, including the mkdir inside
get_log_dir) succeeds, and whether path.write_text succeeds. -/
structure FsOutcomes where
  mkdirOk : Bool
  writeOk : Bool
deriving DecidableEq, Repr

/-- Mirror of utils.write_diagnostics_txt. The mkdir call sits outside the
try/except, so its failure propagates as a raised exception; only the
write_text call is guarded and its failure is returned as the ERROR:
prefixed sentinel string. The report body text is irrelevant to the claim
and is not modelled. -/
def write_diagnostics_txt (env : FsOutcomes) (targetDir ts : String) :
    PyOutcome String :=
  if env.mkdirOk = false then PyOutcome.raises "mkdir failed"
  else
    let path := targetDir ++ "/diagnostics_" ++ ts ++ ".txt"
    if env.writeOk = true then PyOutcome.returns path
    else PyOutcome.returns "ERROR: Kon rapport niet schrijven: write_text failed"

/-- Whether a call returned normally instead of raising. -/
def returnsNormally (o : PyOutcome String) : Bool :=
  match o with
  | PyOutcome.returns _ => true
  | PyOutcome.raises _ => false

/-- Counterexample for C9 as stated: when creating the target directory
fails, write_diagnostics_txt raises to its caller instead of returning an
ERROR: prefixed string, so the sentinel is not the only failure channel. -/
theorem C9_mkdir_failure_raises :
    write_diagnostics_txt ⟨false, true⟩ "/unwritable" "20250101_000000" =
      PyOutcome.raises "mkdir failed" ∧
    returnsNormally
        (write_diagnostics_txt ⟨false, true⟩ "/unwritable" "20250101_000000") =
      false := by decide

/-- C9 amended: once the target directory was created successfully,
write_diagnostics_txt never raises: it returns the report path on a
successful write and a string starting with the literal ERROR: prefix when
the write fails; directory creation failures, which sit outside the
try/except, propagate as exceptions. -/
theorem C9_write_failure_sentinel (env : FsOutcomes) (dir ts : String)
    (hmk : env.mkdirOk = true) :
    write_diagnostics_txt env dir ts =
      (if env.writeOk = true then
        PyOutcome.returns (dir ++ "/diagnostics_" ++ ts ++ ".txt")
       else
        PyOutcome.returns "ERROR: Kon rapport niet schrijven: write_text failed") ∧
    ∃ s, write_diagnostics_txt env dir ts = PyOutcome.returns s ∧
      (s = dir ++ "/diagnostics_" ++ ts ++ ".txt" ∨
        ("ERROR:".toList).isPrefixOf s.toList = true) := by
  constructor
  · by_cases hw : env.writeOk = true <;> simp [write_diagnostics_txt, hmk, hw]
  · by_cases hw : env.writeOk = true
    · exact ⟨dir ++ "/diagnostics_" ++ ts ++ ".txt",
        by simp [write_diagnostics_txt, hmk, hw], Or.inl rfl⟩
    · exact ⟨"ERROR: Kon rapport niet schrijven: write_text failed",
        by simp [write_diagnostics_txt, hmk, hw], Or.inr (by decide)⟩

/-- Witness for C9 amended: with the directory created and the write
failing, the sentinel string is returned rather than an exception. -/
theorem C9_write_failure_sentinel_witness :
    write_diagnostics_txt ⟨true, false⟩ "logs" "20250101_000000" =
      PyOutcome.returns "ERROR: Kon rapport niet schrijven: write_text failed" ∧
    write_diagnostics_txt ⟨true, true⟩ "logs" "20250101_000000" =
      PyOutcome.returns "logs/diagnostics_20250101_000000.txt" := by
  have h1 := C9_write_failure_sentinel ⟨true, false⟩ "logs" "20250101_000000" rfl
  have h2 := C9_write_failure_sentinel ⟨true, true⟩ "logs" "20250101_000000" rfl
  exact ⟨by simpa using h1.1, by simpa using h2.1⟩

/-- One entry of the files argument of bundle_logs_zip: the path string
(the empty string models None or an empty path) and whether the file
exists on disk. -/
structure FileEntry where
  path : String
  onDisk : Bool
deriving DecidableEq, Repr

/-- Base name of a path: the final slash separated component. -/
def basename (p : String) : String :=
  ((p.toList.reverse.takeWhile (fun c => c != '/')).reverse).asString

/-- The condition bundle_logs_zip tests per file:
if path and os.path.exists(path). -/
def keepFile (f : FileEntry) : Bool :=
  (f.path != "") && f.onDisk

/-- Mirror of utils.bundle_logs_zip: the success flag plus the archive
entries as (entry name, content tag) pairs; a disk file entry is tagged by
its source path and a text entry by its content with None mapped to the
empty string (content or ""). The zipOk flag models whether writing the
archive raises; when it does, the function returns False. -/
def bundle_logs_zip (zipOk : Bool) (files : List FileEntry)
    (extraTexts : List (String × Option String)) :
    Bool × List (String × String) :=
  if zipOk = false then (false, [])
  else
    (true,
      (files.filter keepFile).map (fun f => (basename f.path, f.path)) ++
        extraTexts.map (fun nt => (nt.1, nt.2.getD "")))

/-- C10: bundle_logs_zip archives exactly the nonempty existing files, by
base name, plus every extra text entry; it returns True whenever the
archive write succeeds, in particular when none of the listed files exist
(the archive then holds only the extra texts), and returns False exactly
when writing the archive fails. -/
theorem C10_bundle_logs_zip_contract (zipOk : Bool) (files : List FileEntry)
    (extraTexts : List (String × Option String)) :
    (bundle_logs_zip zipOk files extraTexts).1 = zipOk ∧
    bundle_logs_zip true files extraTexts =
      (true,
        (files.filter keepFile).map (fun f => (basename f.path, f.path)) ++
          extraTexts.map (fun nt => (nt.1, nt.2.getD ""))) ∧
    (files.filter keepFile = [] →
      bundle_logs_zip true files extraTexts =
        (true, extraTexts.map (fun nt => (nt.1, nt.2.getD "")))) := by
  refine ⟨?_, rfl, ?_⟩
  · cases zipOk <;> rfl
  · intro hnone
    simp [bundle_logs_zip, hnone]

/-- Witness for C10: a files list holding only an empty path and a missing
file still bundles successfully, producing an archive with just the two
extra text entries (None content mapped to the empty string). -/
theorem C10_bundle_logs_zip_contract_witness :
    bundle_logs_zip true
        [⟨"", true⟩, ⟨"/logs/missing.log", false⟩]
        [("env.txt", some "QGIS: 3.30"), ("note.txt", Option.none)] =
      (true, [("env.txt", "QGIS: 3.30"), ("note.txt", "")]) := by
  have h := (C10_bundle_logs_zip_contract true
      [⟨"", true⟩, ⟨"/logs/missing.log", false⟩]
      [("env.txt", some "QGIS: 3.30"), ("note.txt", Option.none)]).2.2 (by decide)
  simpa using h
